import Mathlib

/-!
Verification of the LSF batch-system helper (src/toil/batchSystems/lsfHelper.py).

The module resolves LSF memory-accounting configuration by probing, in fixed
priority order, the output of two administrative commands (bparams, lsadmin)
and an lsf.conf / lsb.params file located through environment variables, and
converts job memory quantities through a power-of-1024 unit table.

Embedding conventions:
- A "stream" (command output split on newlines, or the lines of a config file)
  is a `List String`.
- The outcome of running an external command is `Option (List String)`:
  `none` models the catch-all `except: return None` branch around
  `subprocess.check_output`, `some lines` a successful run.  Likewise a
  config-file lookup through one environment variable is `none` when the
  variable is unset or no file matches, `some lines` when a file was found
  and read.  The whole external world visible to one resolution call is the
  `LsfEnv` structure.
- Python truthiness on `Optional[str]` (both `None` and `""` are falsy) is
  `pyTruthy`.
- Python string primitives used by the code (`str.strip`, `str.upper`,
  `str.split("=")`, `str.startswith("#")`) are re-implemented structurally
  over `List Char` so that every definition evaluates inside the kernel;
  `strip` uses the six ASCII whitespace characters Python strips, `upper`
  maps ASCII lowercase to uppercase (all configuration tokens involved are
  ASCII).
- Numbers flowing through `convert_mb` are modelled as `ℚ`.  The Python code
  computes `int(float(kb) / math.pow(1024, e))` in binary floating point;
  for the exponents used (-2..2) `math.pow(1024, e)` is an exact power of
  two and dividing a float by a power of two is exact, so over the values
  the module handles the float computation agrees with exact rational
  arithmetic followed by `int()` truncation toward zero (`truncQ`).
- `convert_mb`'s failing `assert` is an `Except String` error carrying the
  assertion message.
-/

/-! ## Python string primitives -/

/-- The six ASCII whitespace characters removed by Python `str.strip()`. -/
def pyIsSpace (c : Char) : Bool :=
  c == ' ' || c == '\t' || c == '\n' || c == '\r' || c == Char.ofNat 11 || c == Char.ofNat 12

/-- Remove leading and trailing whitespace from a character list. -/
def trimChars (s : List Char) : List Char :=
  ((s.dropWhile pyIsSpace).reverse.dropWhile pyIsSpace).reverse

/-- Python `s.strip()`. -/
def pyStrip (s : String) : String :=
  String.mk (trimChars s.data)

/-- ASCII uppercase of one character, as Python `str.upper` acts on ASCII. -/
def upChar (c : Char) : Char :=
  if 97 ≤ c.toNat ∧ c.toNat ≤ 122 then Char.ofNat (c.toNat - 32) else c

/-- Python `s.upper()` on ASCII strings. -/
def pyUpper (s : String) : String :=
  String.mk (s.data.map upChar)

/-- Split a character list on every occurrence of the separator, like Python
`"...".split(sep)` for a one-character separator: the result always has one
more part than there are separators. -/
def splitEqChars : List Char → List (List Char)
  | [] => [[]]
  | c :: rest =>
    if c = '=' then [] :: splitEqChars rest
    else match splitEqChars rest with
      | [] => [[c]]
      | t :: ts => (c :: t) :: ts

/-- Python `line.split("=")`. -/
def pySplitEq (s : String) : List String :=
  (splitEqChars s.data).map String.mk

/-- Python `line.startswith("#")`. -/
def hashComment (s : String) : Bool :=
  match s.data with
  | [] => false
  | c :: _ => c == '#'

/-- Python truthiness on an `Optional[str]`: `None` and `""` are falsy,
every other string is truthy.  Returns the value exactly when truthy. -/
def pyTruthy (s : Option String) : Option String :=
  match s with
  | none => none
  | some v => if v = "" then none else some v

/-! ## Tokenizer and per-key stream scanners (lsfHelper.py lines 78-109) -/

/-- Embeds `tokenize_conf_stream`: skip lines starting with `#`, split each
remaining line on `=`, keep only lines yielding exactly two tokens, yield
the stripped pair, in line order. -/
def tokenize_conf_stream (conf_handle : List String) : List (String × String) :=
  conf_handle.filterMap fun line =>
    if hashComment line then none
    else match pySplitEq line with
      | [k, v] => some (pyStrip k, pyStrip v)
      | _ => none

/-- First value bound to the given key in a token list (the `for k, v in ...:
if k == KEY: return v` loop shared by the three stream scanners). -/
def lookupFirst (key : String) : List (String × String) → Option String
  | [] => none
  | (k, v) :: rest => if k = key then some v else lookupFirst key rest

/-- Embeds `get_lsf_units_from_stream`: the first `LSF_UNIT_FOR_LIMITS`
value, verbatim. -/
def get_lsf_units_from_stream (stream : List String) : Option String :=
  lookupFirst "LSF_UNIT_FOR_LIMITS" (tokenize_conf_stream stream)

/-- Embeds `per_core_reserve_from_stream`: the first
`RESOURCE_RESERVE_PER_SLOT` value, uppercased. -/
def per_core_reserve_from_stream (stream : List String) : Option String :=
  (lookupFirst "RESOURCE_RESERVE_PER_SLOT" (tokenize_conf_stream stream)).map pyUpper

/-- Embeds `parallel_sched_by_slot_from_stream`: the first
`PARALLEL_SCHED_BY_SLOT` value, uppercased. -/
def parallel_sched_by_slot_from_stream (stream : List String) : Option String :=
  (lookupFirst "PARALLEL_SCHED_BY_SLOT" (tokenize_conf_stream stream)).map pyUpper

/-! ## Source probes (lsfHelper.py lines 40-75 and 112-133) -/

/-- The external world one resolution call can observe: the outcome of the
two command probes and, per config filename, the file found (if any) through
each of the two environment variables `LSF_CONFDIR` and `LSF_ENVDIR`. -/
structure LsfEnv where
  bparams : Option (List String)
  lsadmin : Option (List String)
  confdirFile : String → Option (List String)
  envdirFile : String → Option (List String)

/-- Embeds `apply_bparams`: on command failure (`except: return None`)
yield `none`, otherwise apply `fn` to the output lines. -/
def apply_bparams (env : LsfEnv) (fn : List String → Option String) : Option String :=
  match env.bparams with
  | none => none
  | some output => fn output

/-- Embeds `apply_lsadmin`, same shape as `apply_bparams`. -/
def apply_lsadmin (env : LsfEnv) (fn : List String → Option String) : Option String :=
  match env.lsadmin with
  | none => none
  | some output => fn output

/-- The loop body of `apply_conf_file` over the candidate files found through
the environment variables, in order: a missing file is skipped; a found file
is read and `fn`'s answer returned when truthy (`if value: return value`),
else the next candidate is tried. -/
def apply_conf_files (fn : List String → Option String) : List (Option (List String)) → Option String
  | [] => none
  | none :: rest => apply_conf_files fn rest
  | some lines :: rest =>
    match pyTruthy (fn lines) with
    | some v => some v
    | none => apply_conf_files fn rest

/-- Embeds `apply_conf_file`: try the file named `conf_filename` through
`LSF_CONFDIR` then `LSF_ENVDIR`. -/
def apply_conf_file (fn : List String → Option String) (env : LsfEnv) (conf_filename : String) : Option String :=
  apply_conf_files fn [env.confdirFile conf_filename, env.envdirFile conf_filename]

/-! ## Module constants (lsfHelper.py lines 33-37) -/

def LSB_PARAMS_FILENAME : String := "lsb.params"

def LSF_CONF_FILENAME : String := "lsf.conf"

def DEFAULT_LSF_UNITS : String := "KB"

def DEFAULT_RESOURCE_UNITS : String := "MB"

/-! ## Config resolvers (lsfHelper.py lines 136-157 and 182-233) -/

/-- Embeds `get_lsf_units(resource)`: first truthy answer among bparams,
lsadmin, lsf.conf, else `"MB"` in resource mode and `"KB"` otherwise. -/
def get_lsf_units (env : LsfEnv) (resource : Bool) : String :=
  match pyTruthy (apply_bparams env get_lsf_units_from_stream) with
  | some lsf_units => lsf_units
  | none =>
    match pyTruthy (apply_lsadmin env get_lsf_units_from_stream) with
    | some lsf_units => lsf_units
    | none =>
      match pyTruthy (apply_conf_file get_lsf_units_from_stream env LSF_CONF_FILENAME) with
      | some lsf_units => lsf_units
      | none => if resource then DEFAULT_RESOURCE_UNITS else DEFAULT_LSF_UNITS

/-- Embeds `per_core_reservation`: the first truthy probe answer decides
(`True` exactly on `"Y"`); when no probe answers the result is `False`. -/
def per_core_reservation (env : LsfEnv) : Bool :=
  match pyTruthy (apply_bparams env per_core_reserve_from_stream) with
  | some per_core => per_core == "Y"
  | none =>
    match pyTruthy (apply_lsadmin env per_core_reserve_from_stream) with
    | some per_core => per_core == "Y"
    | none =>
      match pyTruthy (apply_conf_file per_core_reserve_from_stream env LSB_PARAMS_FILENAME) with
      | some per_core => per_core == "Y"
      | none => false

/-- Embeds `parallel_sched_by_slot`, same chain over
`PARALLEL_SCHED_BY_SLOT` against lsb.params. -/
def parallel_sched_by_slot (env : LsfEnv) : Bool :=
  match pyTruthy (apply_bparams env parallel_sched_by_slot_from_stream) with
  | some v => v == "Y"
  | none =>
    match pyTruthy (apply_lsadmin env parallel_sched_by_slot_from_stream) with
    | some v => v == "Y"
    | none =>
      match pyTruthy (apply_conf_file parallel_sched_by_slot_from_stream env LSB_PARAMS_FILENAME) with
      | some v => v == "Y"
      | none => false

/-! ## Memory converter (lsfHelper.py lines 236-244) -/

/-- Python `int()` on a rational: truncation toward zero. -/
def truncQ (q : ℚ) : ℤ :=
  if 0 ≤ q then q.floor else -(-q).floor

/-- The `UNITS` dictionary of `convert_mb`: power-of-1024 exponent of each
recognized unit symbol relative to megabytes. -/
def unitExp (u : String) : Option ℤ :=
  if u = "B" then some (-2)
  else if u = "KB" then some (-1)
  else if u = "MB" then some 0
  else if u = "GB" then some 1
  else if u = "TB" then some 2
  else none

/-- The message of the failing `assert` in `convert_mb`, naming the
offending symbol and the valid set. -/
def invalidUnitMsg (u : String) : String :=
  u ++ " not a valid unit, valid units are [B, KB, MB, GB, TB]."

/-- Embeds `convert_mb(kb, unit)`: a failed `assert` for an unrecognized
unit, else `int(kb / 1024**e)`. -/
def convert_mb (kb : ℚ) (unit : String) : Except String ℤ :=
  match unitExp unit with
  | none => Except.error (invalidUnitMsg unit)
  | some e => Except.ok (truncQ (kb / (1024 : ℚ) ^ e))

/-! ## Memory parsers (lsfHelper.py lines 160-179) -/

/-- Embeds `parse_memory(mem, resource)`: resolve the unit, then convert
`mem * 1024` (gigabytes rebased to megabytes). -/
def parse_memory (env : LsfEnv) (mem : ℚ) (resource : Bool) : Except String ℤ :=
  convert_mb (mem * 1024) (get_lsf_units env resource)

/-- Embeds `parse_memory_resource` (`-R`). -/
def parse_memory_resource (env : LsfEnv) (mem : ℚ) : Except String ℤ :=
  parse_memory env mem true

/-- Embeds `parse_memory_limit` (`-M`). -/
def parse_memory_limit (env : LsfEnv) (mem : ℚ) : Except String ℤ :=
  parse_memory env mem false

/-! ## Spec-side tokenizer (for the refinement comparison only)

The spec describes the tokenizer as splitting each line on the FIRST `=`
into exactly two parts, Python `line.split("=", 1)`; the code instead splits
on every `=` and keeps only lines with exactly one. -/

/-- Python `line.split("=", 1)`: at most one split, at the first `=`. -/
def splitFirstEqChars (s : List Char) : List (List Char) :=
  match s.dropWhile (fun c => !(c == '=')) with
  | [] => [s.takeWhile (fun c => !(c == '='))]
  | _ :: after => [s.takeWhile (fun c => !(c == '=')), after]

/-- String version of `splitFirstEqChars`. -/
def pySplitFirstEq (s : String) : List String :=
  (splitFirstEqChars s.data).map String.mk

/-- Modelled from the spec ("A line is split on the first `=` into exactly
two parts"): the tokenizer as the spec words it, identical to
`tokenize_conf_stream` except for the split. -/
def tokenize_spec (conf_handle : List String) : List (String × String) :=
  conf_handle.filterMap fun line =>
    if hashComment line then none
    else match pySplitFirstEq line with
      | [k, v] => some (pyStrip k, pyStrip v)
      | _ => none

/-- A convenient empty config-file probe: no file is found for any name. -/
def noFiles : String → Option (List String) := fun _ => none

/-- An environment where only the bparams command answers, with the given
output lines. -/
def cmdOnly (lines : List String) : LsfEnv :=
  ⟨some lines, none, noFiles, noFiles⟩

/-! ## Shared helper lemmas -/

/-- Batteries' `Rat.floor` is Mathlib's `Int.floor` on `ℚ`. -/
theorem ratFloor_eq_intFloor (q : ℚ) : q.floor = ⌊q⌋ := by
  rw [Rat.floor_def', ← Rat.floor_def]

/-- On non-negative rationals, truncation toward zero is the floor. -/
theorem truncQ_eq_floor (q : ℚ) (h : 0 ≤ q) : truncQ q = ⌊q⌋ := by
  rw [truncQ, if_pos h, ratFloor_eq_intFloor]

/-- Unfolding `convert_mb` on a recognized unit. -/
theorem convert_mb_ok (v : ℚ) (u : String) (e : ℤ) (he : unitExp u = some e) :
    convert_mb v u = Except.ok (truncQ (v / (1024 : ℚ) ^ e)) := by
  simp [convert_mb, he]

/-! ## Claims -/

/-- C1: for every recognized unit u with exponent e (B ↦ -2, KB ↦ -1,
MB ↦ 0, GB ↦ 1, TB ↦ 2) and every non-negative v in megabytes,
`convert_mb v u` succeeds with `⌊v / 1024 ^ e⌋`, a non-negative result; in
particular `convert_mb 1024 "MB" = 1024`, `convert_mb 1024 "GB" = 1`, and
`convert_mb 1024 "KB" = 1048576`. -/
theorem convert_mb_floor_correct :
    (∀ (v : ℚ) (u : String) (e : ℤ), 0 ≤ v → unitExp u = some e →
      convert_mb v u = Except.ok ⌊v / (1024 : ℚ) ^ e⌋ ∧ 0 ≤ ⌊v / (1024 : ℚ) ^ e⌋)
    ∧ unitExp "B" = some (-2) ∧ unitExp "KB" = some (-1) ∧ unitExp "MB" = some 0
    ∧ unitExp "GB" = some 1 ∧ unitExp "TB" = some 2
    ∧ convert_mb 1024 "MB" = Except.ok 1024
    ∧ convert_mb 1024 "GB" = Except.ok 1
    ∧ convert_mb 1024 "KB" = Except.ok 1048576 := by
  have key : ∀ (v : ℚ) (u : String) (e : ℤ), 0 ≤ v → unitExp u = some e →
      convert_mb v u = Except.ok ⌊v / (1024 : ℚ) ^ e⌋ ∧ 0 ≤ ⌊v / (1024 : ℚ) ^ e⌋ := by
    intro v u e hv he
    have hq : (0 : ℚ) ≤ v / (1024 : ℚ) ^ e := by positivity
    constructor
    · rw [convert_mb_ok v u e he, truncQ_eq_floor _ hq]
    · exact Int.floor_nonneg.mpr hq
  refine ⟨key, rfl, rfl, rfl, rfl, rfl, ?_, ?_, ?_⟩
  · rw [(key 1024 "MB" 0 (by norm_num) rfl).1]
    have h : (1024 : ℚ) / 1024 ^ (0 : ℤ) = ((1024 : ℤ) : ℚ) := by norm_num
    rw [h, Int.floor_intCast]
  · rw [(key 1024 "GB" 1 (by norm_num) rfl).1]
    have h : (1024 : ℚ) / 1024 ^ (1 : ℤ) = ((1 : ℤ) : ℚ) := by norm_num
    rw [h, Int.floor_intCast]
  · rw [(key 1024 "KB" (-1) (by norm_num) rfl).1]
    have h : (1024 : ℚ) / 1024 ^ (-1 : ℤ) = ((1048576 : ℤ) : ℚ) := by
      norm_num [zpow_neg_one]
    rw [h, Int.floor_intCast]

/-- C1 witness: the universal part instantiated at v = 2048, u = "TB". -/
theorem convert_mb_floor_correct_witness :
    convert_mb 2048 "TB" = Except.ok ⌊(2048 : ℚ) / (1024 : ℚ) ^ (2 : ℤ)⌋
    ∧ 0 ≤ ⌊(2048 : ℚ) / (1024 : ℚ) ^ (2 : ℤ)⌋ :=
  convert_mb_floor_correct.1 2048 "TB" 2 (by norm_num) rfl

/-- C2: `parse_memory_limit` resolves the unit in limit mode and
`parse_memory_resource` in resource mode, each returning the conversion of
`mem * 1024` against the resolved unit; with the unit resolved to "KB",
"MB" and "GB" respectively, `parse_memory_limit 2` returns 2097152, 2048
and 2. -/
theorem parse_memory_spec :
    (∀ (env : LsfEnv) (m : ℚ),
      parse_memory_limit env m = convert_mb (m * 1024) (get_lsf_units env false)
      ∧ parse_memory_resource env m = convert_mb (m * 1024) (get_lsf_units env true))
    ∧ get_lsf_units (cmdOnly ["LSF_UNIT_FOR_LIMITS=KB"]) false = "KB"
    ∧ get_lsf_units (cmdOnly ["LSF_UNIT_FOR_LIMITS=MB"]) false = "MB"
    ∧ get_lsf_units (cmdOnly ["LSF_UNIT_FOR_LIMITS=GB"]) false = "GB"
    ∧ parse_memory_limit (cmdOnly ["LSF_UNIT_FOR_LIMITS=KB"]) 2 = Except.ok 2097152
    ∧ parse_memory_limit (cmdOnly ["LSF_UNIT_FOR_LIMITS=MB"]) 2 = Except.ok 2048
    ∧ parse_memory_limit (cmdOnly ["LSF_UNIT_FOR_LIMITS=GB"]) 2 = Except.ok 2 := by
  have hKB : get_lsf_units (cmdOnly ["LSF_UNIT_FOR_LIMITS=KB"]) false = "KB" := by decide
  have hMB : get_lsf_units (cmdOnly ["LSF_UNIT_FOR_LIMITS=MB"]) false = "MB" := by decide
  have hGB : get_lsf_units (cmdOnly ["LSF_UNIT_FOR_LIMITS=GB"]) false = "GB" := by decide
  have hm : (2 : ℚ) * 1024 = 2048 := by norm_num
  refine ⟨fun env m => ⟨rfl, rfl⟩, hKB, hMB, hGB, ?_, ?_, ?_⟩
  · show convert_mb ((2 : ℚ) * 1024) (get_lsf_units (cmdOnly ["LSF_UNIT_FOR_LIMITS=KB"]) false)
      = Except.ok 2097152
    rw [hKB, hm, convert_mb_ok 2048 "KB" (-1) rfl, truncQ_eq_floor _ (by positivity)]
    have h : (2048 : ℚ) / 1024 ^ (-1 : ℤ) = ((2097152 : ℤ) : ℚ) := by norm_num [zpow_neg_one]
    rw [h, Int.floor_intCast]
  · show convert_mb ((2 : ℚ) * 1024) (get_lsf_units (cmdOnly ["LSF_UNIT_FOR_LIMITS=MB"]) false)
      = Except.ok 2048
    rw [hMB, hm, convert_mb_ok 2048 "MB" 0 rfl, truncQ_eq_floor _ (by positivity)]
    have h : (2048 : ℚ) / 1024 ^ (0 : ℤ) = ((2048 : ℤ) : ℚ) := by norm_num
    rw [h, Int.floor_intCast]
  · show convert_mb ((2 : ℚ) * 1024) (get_lsf_units (cmdOnly ["LSF_UNIT_FOR_LIMITS=GB"]) false)
      = Except.ok 2
    rw [hGB, hm, convert_mb_ok 2048 "GB" 1 rfl, truncQ_eq_floor _ (by positivity)]
    have h : (2048 : ℚ) / 1024 ^ (1 : ℤ) = ((2 : ℤ) : ℚ) := by norm_num
    rw [h, Int.floor_intCast]

/-- C3 counterexample: the bparams probe succeeds and its output contains
the target key `LSF_UNIT_FOR_LIMITS` (with an empty value), yet the
resolver does not stop there: it returns the second command probe's value
"GB", not the first probe's value "". -/
theorem resolver_priority_counterexample :
    get_lsf_units_from_stream ["LSF_UNIT_FOR_LIMITS ="] = some ""
    ∧ get_lsf_units
        ⟨some ["LSF_UNIT_FOR_LIMITS ="], some ["LSF_UNIT_FOR_LIMITS=GB"], noFiles, noFiles⟩
        false = "GB"
    ∧ ("GB" : String) ≠ "" := by
  refine ⟨by decide, by decide, by decide⟩

/-- C3 amended: the resolvers try bparams, then lsadmin, then the config
file, stopping at the first probe that succeeds and yields a NON-EMPTY
value for the target key; when both command probes hold the key with
different non-empty values the first command probe's value wins. -/
theorem resolver_priority_order :
    (∀ (env : LsfEnv) (r : Bool) (u : String),
      pyTruthy (apply_bparams env get_lsf_units_from_stream) = some u →
      get_lsf_units env r = u)
    ∧ (∀ (env : LsfEnv) (r : Bool) (u : String),
      pyTruthy (apply_bparams env get_lsf_units_from_stream) = none →
      pyTruthy (apply_lsadmin env get_lsf_units_from_stream) = some u →
      get_lsf_units env r = u)
    ∧ (∀ (env : LsfEnv) (v : String),
      pyTruthy (apply_bparams env per_core_reserve_from_stream) = some v →
      per_core_reservation env = (v == "Y"))
    ∧ (∀ (env : LsfEnv) (v : String),
      pyTruthy (apply_bparams env parallel_sched_by_slot_from_stream) = some v →
      parallel_sched_by_slot env = (v == "Y"))
    ∧ get_lsf_units
        ⟨some ["LSF_UNIT_FOR_LIMITS=GB"], some ["LSF_UNIT_FOR_LIMITS=TB"], noFiles, noFiles⟩
        false = "GB"
    ∧ get_lsf_units
        ⟨some ["LSF_UNIT_FOR_LIMITS=GB"], some ["LSF_UNIT_FOR_LIMITS=TB"], noFiles, noFiles⟩
        true = "GB"
    ∧ get_lsf_units
        ⟨some ["FOO=1"], some ["LSF_UNIT_FOR_LIMITS=TB"], noFiles, noFiles⟩
        false = "TB"
    ∧ per_core_reservation
        ⟨some ["RESOURCE_RESERVE_PER_SLOT=Y"], some ["RESOURCE_RESERVE_PER_SLOT=N"], noFiles, noFiles⟩
        = true
    ∧ per_core_reservation
        ⟨some ["RESOURCE_RESERVE_PER_SLOT=N"], some ["RESOURCE_RESERVE_PER_SLOT=Y"], noFiles, noFiles⟩
        = false := by
  refine ⟨?_, ?_, ?_, ?_, by decide, by decide, by decide, by decide, by decide⟩
  · intro env r u h
    simp [get_lsf_units, h]
  · intro env r u h1 h2
    simp [get_lsf_units, h1, h2]
  · intro env v h
    simp [per_core_reservation, h]
  · intro env v h
    simp [parallel_sched_by_slot, h]

/-- C3 witness: the first amended clause instantiated at a concrete
environment where bparams resolves the unit to "TB". -/
theorem resolver_priority_order_witness :
    get_lsf_units (cmdOnly ["LSF_UNIT_FOR_LIMITS=TB"]) false = "TB" :=
  resolver_priority_order.1 (cmdOnly ["LSF_UNIT_FOR_LIMITS=TB"]) false "TB" (by decide)

/-- C4 counterexample: both command probes are unavailable and the
config-file probe finds a file containing the target key (with an empty
value), yet the resolver returns the default "KB", not the file-derived
value "". -/
theorem resolver_default_counterexample :
    get_lsf_units_from_stream ["LSF_UNIT_FOR_LIMITS ="] = some ""
    ∧ get_lsf_units
        ⟨none, none, fun fn => if fn = "lsf.conf" then some ["LSF_UNIT_FOR_LIMITS ="] else none,
         noFiles⟩ false = "KB"
    ∧ ("KB" : String) ≠ "" := by
  refine ⟨by decide, by decide, by decide⟩

/-- C4 amended: the resolver returns its default exactly when every probe
is unavailable or yields no non-empty value for the key; if both command
probes are unavailable but the config-file probe finds a file holding the
key with a non-empty value, that value is returned, never the default; and
when all probes fail `get_lsf_units` returns "MB" in resource mode and
"KB" in limit mode, selected by the caller-supplied flag. -/
theorem resolver_default_spec :
    (∀ (env : LsfEnv) (r : Bool) (u : String),
      env.bparams = none → env.lsadmin = none →
      pyTruthy (apply_conf_file get_lsf_units_from_stream env LSF_CONF_FILENAME) = some u →
      get_lsf_units env r = u)
    ∧ (∀ env : LsfEnv,
      pyTruthy (apply_bparams env get_lsf_units_from_stream) = none →
      pyTruthy (apply_lsadmin env get_lsf_units_from_stream) = none →
      pyTruthy (apply_conf_file get_lsf_units_from_stream env LSF_CONF_FILENAME) = none →
      get_lsf_units env true = "MB" ∧ get_lsf_units env false = "KB")
    ∧ get_lsf_units
        ⟨none, none, fun fn => if fn = "lsf.conf" then some ["LSF_UNIT_FOR_LIMITS=TB"] else none,
         noFiles⟩ false = "TB"
    ∧ get_lsf_units
        ⟨none, none, fun fn => if fn = "lsf.conf" then some ["LSF_UNIT_FOR_LIMITS=TB"] else none,
         noFiles⟩ true = "TB"
    ∧ get_lsf_units ⟨none, none, noFiles, noFiles⟩ true = "MB"
    ∧ get_lsf_units ⟨none, none, noFiles, noFiles⟩ false = "KB" := by
  refine ⟨?_, ?_, by decide, by decide, by decide, by decide⟩
  · intro env r u hb hl hc
    have hbp : pyTruthy (apply_bparams env get_lsf_units_from_stream) = none := by
      simp [apply_bparams, hb, pyTruthy]
    have hlp : pyTruthy (apply_lsadmin env get_lsf_units_from_stream) = none := by
      simp [apply_lsadmin, hl, pyTruthy]
    simp [get_lsf_units, hbp, hlp, hc]
  · intro env h1 h2 h3
    constructor
    · simp [get_lsf_units, h1, h2, h3, DEFAULT_RESOURCE_UNITS]
    · simp [get_lsf_units, h1, h2, h3, DEFAULT_LSF_UNITS]

/-- C4 witness: both amended clauses instantiated at concrete
environments. -/
theorem resolver_default_spec_witness :
    get_lsf_units
      ⟨none, none, fun fn => if fn = "lsf.conf" then some ["LSF_UNIT_FOR_LIMITS=B"] else none,
       noFiles⟩ true = "B"
    ∧ (get_lsf_units ⟨none, some ["X"], noFiles, noFiles⟩ true = "MB"
       ∧ get_lsf_units ⟨none, some ["X"], noFiles, noFiles⟩ false = "KB") :=
  ⟨resolver_default_spec.1 _ true "B" rfl rfl (by decide),
   resolver_default_spec.2.1 _ (by decide) (by decide) (by decide)⟩

/-- C5: for every value x and every symbol outside the recognized set,
`convert_mb` fails with the InvalidUnit error naming the offending symbol
and listing the valid units; it never substitutes a default. -/
theorem convert_mb_invalid_unit :
    (∀ (x : ℚ) (u : String), u ∉ (["B", "KB", "MB", "GB", "TB"] : List String) →
      convert_mb x u = Except.error (invalidUnitMsg u))
    ∧ invalidUnitMsg "bogus" = "bogus not a valid unit, valid units are [B, KB, MB, GB, TB]." := by
  refine ⟨?_, rfl⟩
  intro x u h
  simp only [List.mem_cons, List.mem_singleton, not_or] at h
  obtain ⟨h1, h2, h3, h4, h5, -⟩ := h
  simp [convert_mb, unitExp, h1, h2, h3, h4, h5]

/-- C5 witness: the invalid-unit failure at x = 7, u = "bogus". -/
theorem convert_mb_invalid_unit_witness :
    convert_mb 7 "bogus" = Except.error (invalidUnitMsg "bogus") :=
  convert_mb_invalid_unit.1 7 "bogus" (by decide)

/-- C6 counterexample: the claim says a line is split on the FIRST `=` into
exactly two parts, so the stream ["X=1=2"] would yield [("X", "1=2")]
(which `tokenize_spec`, modelled from the spec wording, does); the code
splits on every `=`, gets three tokens, and silently skips the line. -/
theorem tokenize_split_counterexample :
    tokenize_spec ["X=1=2"] = [("X", "1=2")]
    ∧ tokenize_conf_stream ["X=1=2"] = []
    ∧ tokenize_conf_stream ["X=1=2"] ≠ tokenize_spec ["X=1=2"] := by
  refine ⟨by decide, by decide, by decide⟩

/-- C6 amended: the tokenizer skips lines beginning with '#', splits every
other line on EVERY '=', keeps a line exactly when that split yields
exactly two parts (exactly one '='), trims surrounding whitespace from
both parts, silently skips every other line, and yields entries in line
order; the example stream still yields [("A","1"), ("B","2")]. -/
theorem tokenize_conf_stream_spec :
    tokenize_conf_stream ["# comment", "A=1", "bad line", "B = 2"] = [("A", "1"), ("B", "2")]
    ∧ (∀ (line : String) (lines : List String), hashComment line = true →
        tokenize_conf_stream (line :: lines) = tokenize_conf_stream lines)
    ∧ (∀ (line : String) (lines : List String), hashComment line = false →
        (pySplitEq line).length ≠ 2 →
        tokenize_conf_stream (line :: lines) = tokenize_conf_stream lines)
    ∧ (∀ (line : String) (lines : List String) (k v : String), hashComment line = false →
        pySplitEq line = [k, v] →
        tokenize_conf_stream (line :: lines)
          = (pyStrip k, pyStrip v) :: tokenize_conf_stream lines) := by
  refine ⟨by decide, ?_, ?_, ?_⟩
  · intro line lines h
    simp [tokenize_conf_stream, List.filterMap_cons, h]
  · intro line lines h hlen
    rcases hsplit : pySplitEq line with _ | ⟨a, _ | ⟨b, _ | ⟨c, rest⟩⟩⟩
    · simp [tokenize_conf_stream, List.filterMap_cons, h, hsplit]
    · simp [tokenize_conf_stream, List.filterMap_cons, h, hsplit]
    · exact absurd (by rw [hsplit]; rfl) hlen
    · simp [tokenize_conf_stream, List.filterMap_cons, h, hsplit]
  · intro line lines k v h hsplit
    simp [tokenize_conf_stream, List.filterMap_cons, h, hsplit]

/-- C6 witness: the three conditional amended clauses instantiated on
concrete lines. -/
theorem tokenize_conf_stream_spec_witness :
    tokenize_conf_stream ["# note"] = tokenize_conf_stream []
    ∧ tokenize_conf_stream ["no separator"] = tokenize_conf_stream []
    ∧ tokenize_conf_stream [" K = V "] = (pyStrip " K ", pyStrip " V ") :: tokenize_conf_stream [] :=
  ⟨tokenize_conf_stream_spec.2.1 "# note" [] rfl,
   tokenize_conf_stream_spec.2.2.1 "no separator" [] rfl (by decide),
   tokenize_conf_stream_spec.2.2.2 " K = V " [] " K " " V " rfl (by decide)⟩

/-- C7: a failed command probe is `none` for the caller whatever scanner it
was given, and resolution proceeds to the next probe or the default. -/
theorem command_probe_failure_unavailable :
    (∀ (env : LsfEnv) (fn : List String → Option String),
      env.bparams = none → apply_bparams env fn = none)
    ∧ (∀ (env : LsfEnv) (fn : List String → Option String),
      env.lsadmin = none → apply_lsadmin env fn = none)
    ∧ get_lsf_units ⟨none, some ["LSF_UNIT_FOR_LIMITS=GB"], noFiles, noFiles⟩ false = "GB"
    ∧ get_lsf_units ⟨none, none, noFiles, noFiles⟩ false = "KB"
    ∧ get_lsf_units ⟨none, none, noFiles, noFiles⟩ true = "MB"
    ∧ per_core_reservation ⟨none, none, noFiles, noFiles⟩ = false
    ∧ parallel_sched_by_slot ⟨none, none, noFiles, noFiles⟩ = false := by
  refine ⟨?_, ?_, by decide, by decide, by decide, by decide, by decide⟩
  · intro env fn h
    simp [apply_bparams, h]
  · intro env fn h
    simp [apply_lsadmin, h]

/-- C7 witness: the two probe clauses instantiated at the all-failing
environment. -/
theorem command_probe_failure_unavailable_witness :
    apply_bparams ⟨none, none, noFiles, noFiles⟩ get_lsf_units_from_stream = none
    ∧ apply_lsadmin ⟨none, none, noFiles, noFiles⟩ per_core_reserve_from_stream = none :=
  ⟨command_probe_failure_unavailable.1 _ _ rfl,
   command_probe_failure_unavailable.2.1 _ _ rfl⟩

/-- C8: for the boolean resolvers, the answer drawn from a probe stream is
compared (after the tokenizer's trimming and the scanner's uppercasing)
against "Y"; any other value, the empty value, and an absent key all give
`false`, which is also the default when every probe fails. -/
theorem boolean_resolver_y_semantics :
    (∀ lines : List String,
      per_core_reservation (cmdOnly lines)
        = (((per_core_reserve_from_stream lines).getD "") == "Y"))
    ∧ (∀ lines : List String,
      parallel_sched_by_slot (cmdOnly lines)
        = (((parallel_sched_by_slot_from_stream lines).getD "") == "Y"))
    ∧ per_core_reservation (cmdOnly ["RESOURCE_RESERVE_PER_SLOT=y"]) = true
    ∧ per_core_reservation (cmdOnly ["RESOURCE_RESERVE_PER_SLOT=Y"]) = true
    ∧ per_core_reservation (cmdOnly ["RESOURCE_RESERVE_PER_SLOT=Y "]) = true
    ∧ per_core_reservation (cmdOnly ["RESOURCE_RESERVE_PER_SLOT=n"]) = false
    ∧ per_core_reservation (cmdOnly ["RESOURCE_RESERVE_PER_SLOT="]) = false
    ∧ per_core_reservation (cmdOnly []) = false
    ∧ per_core_reservation ⟨none, none, noFiles, noFiles⟩ = false
    ∧ parallel_sched_by_slot (cmdOnly ["PARALLEL_SCHED_BY_SLOT=y"]) = true
    ∧ parallel_sched_by_slot (cmdOnly ["PARALLEL_SCHED_BY_SLOT=no"]) = false := by
  refine ⟨?_, ?_, by decide, by decide, by decide, by decide, by decide, by decide, by decide,
    by decide, by decide⟩
  · intro lines
    rcases h : per_core_reserve_from_stream lines with - | v
    · simp [per_core_reservation, cmdOnly, apply_bparams, apply_lsadmin, apply_conf_file,
        apply_conf_files, noFiles, pyTruthy, h]
    · by_cases hv : v = ""
      · subst hv
        simp [per_core_reservation, cmdOnly, apply_bparams, apply_lsadmin, apply_conf_file,
          apply_conf_files, noFiles, pyTruthy, h]
      · simp [per_core_reservation, cmdOnly, apply_bparams, pyTruthy, h, hv]
  · intro lines
    rcases h : parallel_sched_by_slot_from_stream lines with - | v
    · simp [parallel_sched_by_slot, cmdOnly, apply_bparams, apply_lsadmin, apply_conf_file,
        apply_conf_files, noFiles, pyTruthy, h]
    · by_cases hv : v = ""
      · subst hv
        simp [parallel_sched_by_slot, cmdOnly, apply_bparams, apply_lsadmin, apply_conf_file,
          apply_conf_files, noFiles, pyTruthy, h]
      · simp [parallel_sched_by_slot, cmdOnly, apply_bparams, pyTruthy, h, hv]

/-- C9: the unit scanner returns the tokenized `LSF_UNIT_FOR_LIMITS` value
verbatim (trimmed by the tokenizer, never case-normalized), so a lowercase
"kb" reaches `convert_mb` unchanged and `parse_memory` fails with the
InvalidUnit error. -/
theorem lsf_units_not_normalized :
    (∀ (stream : List String) (v : String),
      lookupFirst "LSF_UNIT_FOR_LIMITS" (tokenize_conf_stream stream) = some v →
      get_lsf_units_from_stream stream = some v)
    ∧ get_lsf_units_from_stream ["LSF_UNIT_FOR_LIMITS=kb"] = some "kb"
    ∧ get_lsf_units (cmdOnly ["LSF_UNIT_FOR_LIMITS=kb"]) false = "kb"
    ∧ unitExp "kb" = none
    ∧ parse_memory_limit (cmdOnly ["LSF_UNIT_FOR_LIMITS=kb"]) 2
        = Except.error (invalidUnitMsg "kb")
    ∧ invalidUnitMsg "kb" = "kb not a valid unit, valid units are [B, KB, MB, GB, TB]." := by
  have hu : get_lsf_units (cmdOnly ["LSF_UNIT_FOR_LIMITS=kb"]) false = "kb" := by decide
  refine ⟨fun stream v h => h, by decide, hu, by decide, ?_, rfl⟩
  show convert_mb ((2 : ℚ) * 1024) (get_lsf_units (cmdOnly ["LSF_UNIT_FOR_LIMITS=kb"]) false)
    = Except.error (invalidUnitMsg "kb")
  rw [hu]
  rfl

/-- C9 witness: the verbatim-value clause instantiated on a concrete
stream. -/
theorem lsf_units_not_normalized_witness :
    get_lsf_units_from_stream ["LSF_UNIT_FOR_LIMITS = tb"] = some "tb" :=
  lsf_units_not_normalized.1 ["LSF_UNIT_FOR_LIMITS = tb"] "tb" (by decide)

/-- C10: a probe whose output holds the target key with an empty value is
passed over (the empty answer is falsy), resolution continues with the
lower-priority probes, and when none yields a non-empty value the default
is returned; the same holds between the two config-file candidates. -/
theorem empty_value_continues :
    (∀ (env : LsfEnv) (r : Bool) (u : String),
      apply_bparams env get_lsf_units_from_stream = some "" →
      pyTruthy (apply_lsadmin env get_lsf_units_from_stream) = some u →
      get_lsf_units env r = u)
    ∧ (∀ env : LsfEnv,
      apply_bparams env get_lsf_units_from_stream = some "" →
      pyTruthy (apply_lsadmin env get_lsf_units_from_stream) = none →
      pyTruthy (apply_conf_file get_lsf_units_from_stream env LSF_CONF_FILENAME) = none →
      get_lsf_units env true = "MB" ∧ get_lsf_units env false = "KB")
    ∧ tokenize_conf_stream ["LSF_UNIT_FOR_LIMITS ="] = [("LSF_UNIT_FOR_LIMITS", "")]
    ∧ get_lsf_units_from_stream ["LSF_UNIT_FOR_LIMITS ="] = some ""
    ∧ get_lsf_units
        ⟨some ["LSF_UNIT_FOR_LIMITS ="], some ["LSF_UNIT_FOR_LIMITS=GB"], noFiles, noFiles⟩
        false = "GB"
    ∧ get_lsf_units (cmdOnly ["LSF_UNIT_FOR_LIMITS ="]) false = "KB"
    ∧ get_lsf_units (cmdOnly ["LSF_UNIT_FOR_LIMITS ="]) true = "MB"
    ∧ apply_conf_files get_lsf_units_from_stream
        [some ["LSF_UNIT_FOR_LIMITS ="], some ["LSF_UNIT_FOR_LIMITS=TB"]] = some "TB" := by
  refine ⟨?_, ?_, by decide, by decide, by decide, by decide, by decide, by decide⟩
  · intro env r u hb hl
    have hbp : pyTruthy (apply_bparams env get_lsf_units_from_stream) = none := by
      simp [hb, pyTruthy]
    simp [get_lsf_units, hbp, hl]
  · intro env hb hl hc
    have hbp : pyTruthy (apply_bparams env get_lsf_units_from_stream) = none := by
      simp [hb, pyTruthy]
    constructor
    · simp [get_lsf_units, hbp, hl, hc, DEFAULT_RESOURCE_UNITS]
    · simp [get_lsf_units, hbp, hl, hc, DEFAULT_LSF_UNITS]

/-- C10 witness: both conditional clauses instantiated at concrete
environments whose bparams output holds the key with an empty value. -/
theorem empty_value_continues_witness :
    get_lsf_units
      ⟨some ["LSF_UNIT_FOR_LIMITS ="], some ["LSF_UNIT_FOR_LIMITS=B"], noFiles, noFiles⟩
      true = "B"
    ∧ (get_lsf_units (cmdOnly ["LSF_UNIT_FOR_LIMITS ="]) true = "MB"
       ∧ get_lsf_units (cmdOnly ["LSF_UNIT_FOR_LIMITS ="]) false = "KB") :=
  ⟨empty_value_continues.1 _ true "B" (by decide) (by decide),
   empty_value_continues.2.1 _ (by decide) (by decide) (by decide)⟩
